import Mathlib

/-!
Verification of the FPGA local-image slot tracker harness.

This file gives a shallow embedding of the Python test harness of the
aws-fpga repository: the command-invocation wrapper `runCmd` of
`shared/lib/aws_fpga_test_utils/AwsFpgaTestBase.py`, the slot helpers built
on it, the polling loops of `sdk/tests/test_fpga_tools.py`, and the example
discovery filter of `Vitis/tests/test_find_vitis_examples.py`.  External
processes are modelled by their observable outcome (exit code and captured
stream text); logging is modelled as an explicit list of structured log
entries so that theorems can distinguish what is returned from what is
merely logged.
-/

namespace AwsFpga

/-- Observable outcome of the external process started by `runCmd`:
its exit code and the raw text captured from its stdout and stderr. -/
structure ProcOutcome where
  returncode : Int
  stdout : String
  stderr : String
deriving Repr, DecidableEq

/-- A structured view of the messages `runCmd` passes to the logger.
`running` is the `logger.info("Running: ...")` echo line, `cmdFailed` the
`logger.error("Cmd failed with rc=...")` message (which embeds the command,
the exit code and both captured streams), and `cmdResult` the
`logger.info("rc=...")` echo of a completed command. -/
inductive LogEntry where
  | running (cmd : String)
  | cmdFailed (cmd : String) (rc : Int) (stdout stderr : String)
  | cmdResult (rc : Int) (stdout stderr : String)
deriving Repr, DecidableEq

/-- Python `str.split` on the single character `'\n'`, on the character
list of the string: the splitter of `runCmd`.  Splitting the empty string
yields one empty field, and every `'\n'` starts a new field, so text that
ends in a newline produces a trailing empty field. -/
def splitNlChars : List Char → List (List Char)
  | [] => [[]]
  | c :: cs =>
    match splitNlChars cs with
    | [] => [[]]
    | l :: ls => if c = '\n' then [] :: l :: ls else (c :: l) :: ls

/-- `stdout_data.split('\n')` of `runCmd`, as a function on `String`. -/
def pySplitLines (s : String) : List String :=
  (splitNlChars s.data).map List.asString

/-- The `run_cmd(cmd, echo, check)` static method of `AwsFpgaTestBase`
(`shared/lib/aws_fpga_test_utils/AwsFpgaTestBase.py`), applied to the
outcome of the spawned process.  It returns the
`(p.returncode, stdout_lines, stderr_lines)` triple together with the log
entries it emitted: an optional `Running:` echo, then either the
`Cmd failed` error (when `check` holds and the exit code is truthy) or the
`rc=` echo (when `echo` holds), mirroring the `if check and p.returncode:`
/ `elif echo:` chain of the source. -/
def runCmd (cmd : String) (outcome : ProcOutcome) (echo : Bool) (check : Bool) :
    (Int × List String × List String) × List LogEntry :=
  let echoLog : List LogEntry := if echo then [LogEntry.running cmd] else []
  let stdout_lines := pySplitLines outcome.stdout
  let stderr_lines := pySplitLines outcome.stderr
  let tailLog : List LogEntry :=
    if check && outcome.returncode != 0 then
      [LogEntry.cmdFailed cmd outcome.returncode outcome.stdout outcome.stderr]
    else if echo then
      [LogEntry.cmdResult outcome.returncode outcome.stdout outcome.stderr]
    else []
  ((outcome.returncode, stdout_lines, stderr_lines), echoLog ++ tailLog)

/-- `exec_as_user(as_root, command)` of `AwsFpgaTestBase`: prepends the
`sudo` privilege-elevation marker when `as_root` holds. -/
def exec_as_user (as_root : Bool) (command : String) : String :=
  if as_root then "sudo " ++ command else command

/-- `re.sub('-', '', value)`: drop every dash character of the string,
keeping everything else in order. -/
def removeDashes (s : String) : String :=
  List.asString (s.data.filter fun c => c != '-')

/-- The command line built by `fpga_set_virtual_dip_switch(value, slot,
as_root)` of `AwsFpgaTestBase`: the method first strips every `-` from
`value` and then formats
`{exec_as_user(as_root, "fpga-set-virtual-dip-switch")} -S {slot} -D {value}`. -/
def fpga_set_virtual_dip_switch_cmd (value : String) (slot : Nat) (as_root : Bool) :
    String :=
  let v := removeDashes value
  exec_as_user as_root "fpga-set-virtual-dip-switch" ++ " -S " ++ toString slot ++
    " -D " ++ v

/-- The `while True:` poll loops of `test_load_local_image` and
`test_clear_local_image` (`sdk/tests/test_fpga_tools.py`), step-indexed.
`obs i` is the `statusName` that `fpga_describe_local_image(slot)` reports
at the i-th iteration (the loop sleeps one second between iterations).
The loop body exits only when the observed status equals the target;
`pollRun obs target i fuel = some j` means the loop, entered at iteration
`i`, exits at iteration `j`, and `none` means that after `fuel` further
iterations it is still polling.  The source loop is unbounded — the fuel
is only the observation depth of this embedding, it does not exist in the
code, which has no iteration cap and no timeout branch. -/
def pollRun (obs : Nat → String) (target : String) : Nat → Nat → Option Nat
  | _, 0 => none
  | i, fuel + 1 => if obs i = target then some i else pollRun obs target (i + 1) fuel

/-- Status of one FPGA slot as observed through the describe command;
`loading` and `clearing` are the transient mid-transition states. -/
inductive SlotStatus where
  | cleared
  | loading
  | loaded
  | clearing
deriving Repr, DecidableEq

/-- A slot is mid-transition (an asynchronous request is still in
flight). -/
def busyStatus : SlotStatus → Bool
  | SlotStatus.loading => true
  | SlotStatus.clearing => true
  | _ => false

/-- Exit code and split output lines of one slot-management command. -/
structure CmdOut where
  rc : Int
  stdoutLines : List String
  stderrLines : List String
deriving Repr, DecidableEq

/-- Modelled from the spec: the behaviour of the vendor tool
`fpga-clear-local-image -S slot -A` (its source lives under
`sdk/userspace/fpga_mgmt_tools`, which is not in `src/`; only
`sdk/tests/test_fpga_tools.py` exercises it).  Per spec sections 4.3 and 6:
an async request against a slot already mid-transition fails with exit
code 3 (reserved for resource busy) and first output line
`Error: (3) busy`, leaving the slot untouched; otherwise it returns
immediately with an empty success line and the slot starts clearing.  The
test additionally pins the busy output at three stdout lines and one
stderr line; the middle busy line is not named by the spec and is
modelled as empty. -/
def clearLocalImageAsync (s : SlotStatus) : CmdOut × SlotStatus :=
  if busyStatus s then
    (⟨3, ["Error: (3) busy", "", ""], [""]⟩, s)
  else
    (⟨0, [""], [""]⟩, SlotStatus.clearing)

/-- One parsed `AFI` row of the describe commands (spec section 3). -/
structure SlotRecord where
  slot : Nat
  imageId : String
  statusName : String
  statusCode : Nat
  errorName : String
  errorCode : Nat
  shellVersion : String
deriving Repr, DecidableEq

/-- Tokenisation by runs of spaces: accumulator-based scan that drops
empty fields, as splitting whitespace-padded fixed columns requires. -/
def wsTokensAux : List Char → List Char → List String
  | acc, [] => if acc.isEmpty then [] else [List.asString acc.reverse]
  | acc, c :: cs =>
    if c = ' ' then
      if acc.isEmpty then wsTokensAux [] cs
      else List.asString acc.reverse :: wsTokensAux [] cs
    else wsTokensAux (c :: acc) cs

/-- Split a CLI row into its whitespace-delimited tokens. -/
def wsTokens (s : String) : List String :=
  wsTokensAux [] s.data

/-- Value of a decimal digit character. -/
def digitVal? (c : Char) : Option Nat :=
  if '0' ≤ c ∧ c ≤ '9' then some (c.toNat - 48) else none

/-- Base-ten accumulation over the digit characters; `none` as soon as a
non-digit appears. -/
def natFromChars? : List Char → Nat → Option Nat
  | [], acc => some acc
  | c :: cs, acc =>
    match digitVal? c with
    | some d => natFromChars? cs (acc * 10 + d)
    | none => none

/-- Python `int(token)` on a CLI field: the decimal value of a non-empty
all-digit token. -/
def tokNat? (s : String) : Option Nat :=
  match s.data with
  | [] => none
  | cs => natFromChars? cs 0

/-- Modelled from the spec: the `AFI` row parser (the
`fpga_describe_local_image` helper of `aws_fpga_test_utils/__init__.py` is
not in `src/`; only its callers are).  Per spec section 4.2: the first
token is the record-type tag, the remaining seven tokens map positionally
to the `SlotRecord` fields, and tokenisation is by runs of whitespace,
not fixed offsets. -/
def parseAFILine (line : String) : Option SlotRecord :=
  match wsTokens line with
  | [tag, s, img, sn, sc, en, ec, sv] =>
    if tag = "AFI" then
      match tokNat? s, tokNat? sc, tokNat? ec with
      | some slot, some scode, some ecode =>
        some ⟨slot, img, sn, scode, en, ecode, sv⟩
      | _, _, _ => none
    else none
  | _ => none

/-- The status/error invariant of spec section 3 on a parsed record. -/
def slotInvariant (r : SlotRecord) : Prop :=
  (r.statusCode = 0 ↔ r.statusName = "loaded") ∧
    (r.errorCode = 0 ↔ r.errorName = "ok")

instance (r : SlotRecord) : Decidable (slotInvariant r) := by
  unfold slotInvariant
  infer_instance

/-- The `AFI` row that `test_describe_local_image` and
`test_clear_local_image` assert for a cleared slot, with the slot number
and shell version substituted into the f-string of the test. -/
def clearedAFILine (slot : Nat) (sv : String) : String :=
  "AFI          " ++ toString slot ++
    "       none                    cleared           1        ok               0       "
    ++ sv

/-- The `AFI` row that `test_load_local_image` asserts for a loaded slot,
with slot number, AGFI id and shell version substituted. -/
def loadedAFILine (slot : Nat) (agfi sv : String) : String :=
  "AFI          " ++ toString slot ++ "       " ++ agfi ++
    "  loaded            0        ok               0       " ++ sv

/-- The AFI-group header row of the describe commands (spec section 6 and
the literal assertions of `test_fpga_tools.py`). -/
def afiHeaderLine : String :=
  "Type  FpgaImageSlot  FpgaImageId             StatusName    StatusCode   ErrorName    ErrorCode   ShVersion"

/-- The AFIDEVICE-group header row. -/
def deviceHeaderLine : String :=
  "Type  FpgaImageSlot  VendorId    DeviceId    DBDF"

/-- Modelled from the spec: the stdout lines of
`fpga-describe-local-image-slots` for slots `i, i+1, ...` (`k` slots in
all); the tool itself lives under `sdk/userspace/fpga_mgmt_tools`, not in
`src/`.  Per spec sections 4.2 and 6: one `AFIDEVICE` row per slot in slot
order (`dev s` is the row of slot `s`), each record group preceded by one
header line exactly when the `-H` flag is set; the final `""` is the empty
field after the terminating newline that splitting preserves. -/
def slotsLinesFrom (hdr : Bool) (dev : Nat → String) : Nat → Nat → List String
  | _, 0 => [""]
  | i, k + 1 =>
    (if hdr then [deviceHeaderLine] else []) ++ [dev i] ++
      slotsLinesFrom hdr dev (i + 1) k

/-- The stdout lines of `fpga-describe-local-image-slots` over
`numSlots` slots. -/
def describeSlotsLines (numSlots : Nat) (hdr : Bool) (dev : Nat → String) :
    List String :=
  slotsLinesFrom hdr dev 0 numSlots

/-- Modelled from the spec: the stdout lines of
`fpga-describe-local-image -S slot` (tool not under `src/`): one AFI
record group then one AFIDEVICE record group, each preceded by its header
line exactly when `-H` is set, then the trailing empty field. -/
def describeImageLines (hdr : Bool) (afiLine devLine : String) : List String :=
  (if hdr then [afiHeaderLine] else []) ++ [afiLine] ++
    (if hdr then [deviceHeaderLine] else []) ++ [devLine] ++ [""]

/-- The fields of one `description.json` that
`test_find_example_makefiles` (`Vitis/tests/test_find_vitis_examples.py`)
inspects: the optional `containers` list, and the optional `ndevice` and
`platform_blacklist` values probed for membership of `"aws"`. -/
structure VitisDescription where
  containers : Option (List String)
  ndevice : Option (List String)
  platform_blacklist : Option (List String)
deriving DecidableEq

/-- One iteration of the `os.walk` loop of `test_find_example_makefiles`:
whether the walked directory is appended to `xilinx_examples_makefiles`
(and hence later enters `xilinx_vitis_example_map`).
`hasFiles` is the `description.json`-and-`Makefile` existence test.
The body mirrors the source control flow: a missing `containers` key sets
`ignore` and `continue`s; more than one container sets `ignore` but falls
through to the `ndevice` and `platform_blacklist` probes, whose `aws`
hits `continue`; the directory is appended only when `ignore` was never
set. -/
def exampleDirAdded (hasFiles : Bool) (d : VitisDescription) : Bool :=
  if hasFiles then
    match d.containers with
    | none => false
    | some cs =>
      let ignore := decide (1 < cs.length)
      if (match d.ndevice with
          | some nd => decide ("aws" ∈ nd)
          | none => false) then false
      else if (match d.platform_blacklist with
          | some pb => decide ("aws" ∈ pb)
          | none => false) then false
      else !ignore
  else false

theorem splitNlChars_ne_nil (l : List Char) : splitNlChars l ≠ [] := by
  cases l with
  | nil => simp [splitNlChars]
  | cons c cs =>
    simp only [splitNlChars]
    cases h : splitNlChars cs with
    | nil => simp
    | cons a as =>
      by_cases hc : c = '\n' <;> simp [hc]

theorem pySplitLines_ne_nil (s : String) : pySplitLines s ≠ [] := by
  unfold pySplitLines
  simp [splitNlChars_ne_nil]

theorem splitNlChars_append_newline (l : List Char) :
    splitNlChars (l ++ ['\n']) = splitNlChars l ++ [[]] := by
  induction l with
  | nil => rfl
  | cons c cs ih =>
    cases h : splitNlChars cs with
    | nil => exact absurd h (splitNlChars_ne_nil cs)
    | cons a as =>
      simp only [List.cons_append, splitNlChars, List.append_eq]
      rw [ih, h]
      by_cases hc : c = '\n' <;> simp [hc]

theorem pySplitLines_empty : pySplitLines "" = [""] := rfl

/-- C1 counterexample: a command run with `check = true` whose process
exits with the non-zero code 1 does not signal anything — `run_cmd`
returns the `(exitCode, stdoutLines, stderrLines)` triple normally, with
the failure recorded only as a `logger.error` entry. -/
theorem runCmd_check_counterexample :
    runCmd "sudo fpga-load-local-image -S 0 -I agfi-bad" ⟨1, "", "Error\n"⟩ false true =
      ((1, [""], ["Error", ""]),
        [LogEntry.cmdFailed "sudo fpga-load-local-image -S 0 -I agfi-bad" 1 "" "Error\n"]) := by
  decide

/-- C1 (amended): when `check` is true and the exit code is non-zero,
`run_cmd` logs an error entry carrying the command, the exit code and both
captured streams, and returns the `(exitCode, stdoutLines, stderrLines)`
triple normally to the caller; no exception is raised. -/
theorem runCmd_check_logs_and_returns (cmd : String) (o : ProcOutcome) (echo : Bool)
    (h : o.returncode ≠ 0) :
    runCmd cmd o echo true =
      ((o.returncode, pySplitLines o.stdout, pySplitLines o.stderr),
        (if echo then [LogEntry.running cmd] else []) ++
          [LogEntry.cmdFailed cmd o.returncode o.stdout o.stderr]) := by
  unfold runCmd
  simp [h]

/-- Witness for C1's amended theorem at the busy exit of
`test_clear_local_image`: exit code 3 with `check` defaulted to true. -/
theorem runCmd_check_logs_and_returns_witness :
    runCmd "sudo fpga-clear-local-image -S 0 -A" ⟨3, "Error: (3) busy\n\n", ""⟩ true true =
      ((3, ["Error: (3) busy", "", ""], [""]),
        [LogEntry.running "sudo fpga-clear-local-image -S 0 -A",
          LogEntry.cmdFailed "sudo fpga-clear-local-image -S 0 -A" 3 "Error: (3) busy\n\n" ""]) := by
  rw [runCmd_check_logs_and_returns "sudo fpga-clear-local-image -S 0 -A"
    ⟨3, "Error: (3) busy\n\n", ""⟩ true (by decide)]
  decide

/-- C3: `run_cmd` splits the captured stdout and stderr on the newline
character; text that ends in a newline yields a trailing empty-string
line, and a stream that produced no text at all yields exactly one line,
the empty string — so a cleanly exiting process with no stderr text
reports `stderrLines = [""]`. -/
theorem runCmd_split_trailing (cmd : String) (o : ProcOutcome) (echo check : Bool) :
    (runCmd cmd o echo check).1.2.1 = pySplitLines o.stdout ∧
    (runCmd cmd o echo check).1.2.2 = pySplitLines o.stderr ∧
    (∀ t : List Char, o.stderr.data = t ++ ['\n'] →
      ((runCmd cmd o echo check).1.2.2).getLast? = some "") ∧
    (o.stderr = "" → (runCmd cmd o echo check).1.2.2 = [""]) := by
  refine ⟨rfl, rfl, ?_, ?_⟩
  · intro t ht
    show (pySplitLines o.stderr).getLast? = some ""
    unfold pySplitLines
    rw [ht, splitNlChars_append_newline, List.map_append]
    simp [List.asString]
  · intro h
    show pySplitLines o.stderr = [""]
    rw [h]
    rfl

/-- Witness for C3 at a clean `fpga-describe-local-image-slots` run:
empty stderr splits to the single empty line. -/
theorem runCmd_split_trailing_witness :
    (runCmd "sudo fpga-describe-local-image-slots" ⟨0, "AFIDEVICE\n", ""⟩ true true).1.2.2 =
      [""] :=
  (runCmd_split_trailing "sudo fpga-describe-local-image-slots"
    ⟨0, "AFIDEVICE\n", ""⟩ true true).2.2.2 rfl

/-- C8: for every command and process outcome, both line lists returned
by `run_cmd` are non-empty — splitting any text on newline yields at
least one (possibly empty) field — so indexing the first element never
fails. -/
theorem runCmd_lines_nonempty (cmd : String) (o : ProcOutcome) (echo check : Bool) :
    (runCmd cmd o echo check).1.2.1 ≠ [] ∧ (runCmd cmd o echo check).1.2.2 ≠ [] :=
  ⟨pySplitLines_ne_nil o.stdout, pySplitLines_ne_nil o.stderr⟩

/-- C9: the `(exitCode, stdoutLines, stderrLines)` triple returned by
`run_cmd` is the same across all combinations of the `echo` and `check`
flags; the flags only select which log entries are emitted. -/
theorem runCmd_result_flag_independent (cmd : String) (o : ProcOutcome)
    (e1 c1 e2 c2 : Bool) :
    (runCmd cmd o e1 c1).1 = (runCmd cmd o e2 c2).1 := rfl

theorem pollRun_eq_none_of_ne (obs : Nat → String) (target : String)
    (h : ∀ n, obs n ≠ target) : ∀ i fuel, pollRun obs target i fuel = none := by
  intro i fuel
  induction fuel generalizing i with
  | zero => rfl
  | succ f ih => simp [pollRun, h i, ih]

theorem pollRun_some_target (obs : Nat → String) (target : String) :
    ∀ fuel i j, pollRun obs target i fuel = some j → obs j = target := by
  intro fuel
  induction fuel with
  | zero => intro i j h; simp [pollRun] at h
  | succ f ih =>
    intro i j h
    by_cases hc : obs i = target
    · simp [pollRun, hc] at h
      rw [← h]
      exact hc
    · simp [pollRun, hc] at h
      exact ih (i + 1) j h

/-- C2 counterexample: a slot whose observed status is forever `cleared`
while the target is `loaded` leaves the poll loop still running after a
thousand iterations — no `PollTimeout` (or any other exit) ever occurs,
because the `while True:` loop of the tests has no iteration cap at all. -/
theorem pollRun_timeout_counterexample :
    pollRun (fun _ => "cleared") "loaded" 0 1000 = none :=
  pollRun_eq_none_of_ne (fun _ => "cleared") "loaded"
    (fun _ => show "cleared" ≠ "loaded" by decide) 0 1000

/-- C2 (amended): the poll loops of `test_load_local_image` and
`test_clear_local_image` impose no iteration cap and signal no
`PollTimeout`: on a slot whose observed status never equals the target
the loop is still polling after any number of iterations, and whenever
the loop does exit, the exit iteration observed exactly the target
status — a stale or partial record is never returned silently. -/
theorem pollLoop_uncapped (obs : Nat → String) (target : String) (i fuel : Nat) :
    ((∀ n, obs n ≠ target) → pollRun obs target i fuel = none) ∧
    (∀ j, pollRun obs target i fuel = some j → obs j = target) :=
  ⟨fun h => pollRun_eq_none_of_ne obs target h i fuel,
   fun j hj => pollRun_some_target obs target fuel i j hj⟩

/-- Witness for C2's amended theorem: a stream stuck at `busy` never lets
the loop exit within seven observed iterations. -/
theorem pollLoop_uncapped_witness :
    pollRun (fun _ => "busy") "cleared" 0 7 = none :=
  (pollLoop_uncapped (fun _ => "busy") "cleared" 0 7).1
    (fun _ => show "busy" ≠ "cleared" by decide)

/-- C4: an asynchronous request issued against a slot whose previous
request is still mid-transition exits with code 3, reports
`Error: (3) busy` as its first stdout line (with the three stdout lines
and one stderr line the test asserts), and leaves the slot state
untouched — the busy condition reaches the caller, nothing is retried. -/
theorem async_request_busy (s : SlotStatus) (h : busyStatus s = true) :
    (clearLocalImageAsync s).1.rc = 3 ∧
    (clearLocalImageAsync s).1.stdoutLines.head? = some "Error: (3) busy" ∧
    (clearLocalImageAsync s).1.stdoutLines.length = 3 ∧
    (clearLocalImageAsync s).1.stderrLines.length = 1 ∧
    (clearLocalImageAsync s).2 = s := by
  simp [clearLocalImageAsync, h]

/-- Witness for C4: the slot state right after a first async clear from
`cleared` is mid-transition, and the immediately issued second async
clear observes the busy error. -/
theorem async_request_busy_witness :
    (clearLocalImageAsync (clearLocalImageAsync SlotStatus.cleared).2).1.rc = 3 ∧
    (clearLocalImageAsync (clearLocalImageAsync SlotStatus.cleared).2).1.stdoutLines.head? =
      some "Error: (3) busy" ∧
    (clearLocalImageAsync (clearLocalImageAsync SlotStatus.cleared).2).1.stdoutLines.length = 3 ∧
    (clearLocalImageAsync (clearLocalImageAsync SlotStatus.cleared).2).1.stderrLines.length = 1 ∧
    (clearLocalImageAsync (clearLocalImageAsync SlotStatus.cleared).2).2 =
      (clearLocalImageAsync SlotStatus.cleared).2 :=
  async_request_busy (clearLocalImageAsync SlotStatus.cleared).2 (by decide)

/-- C5: the `AFI` rows the tests pin down — the cleared row of
`test_describe_local_image` / `test_clear_local_image` and the loaded row
of `test_load_local_image`, for any slot number up to the eight slots of
an F1 instance — parse to records satisfying the status/error invariant:
`statusCode = 0` exactly for `statusName = "loaded"` and `errorCode = 0`
exactly for `errorName = "ok"`; in particular the cleared row carries
`statusCode = 1` while still reporting `errorName = "ok"` and
`errorCode = 0`. -/
theorem observed_slot_records_invariant (slot : Nat) (h : slot < 8) :
    parseAFILine (clearedAFILine slot "0x04261818") =
        some ⟨slot, "none", "cleared", 1, "ok", 0, "0x04261818"⟩ ∧
    parseAFILine (loadedAFILine slot "agfi-0fcf9e2d397dd7f16" "0x04261818") =
        some ⟨slot, "agfi-0fcf9e2d397dd7f16", "loaded", 0, "ok", 0, "0x04261818"⟩ ∧
    slotInvariant ⟨slot, "none", "cleared", 1, "ok", 0, "0x04261818"⟩ ∧
    slotInvariant ⟨slot, "agfi-0fcf9e2d397dd7f16", "loaded", 0, "ok", 0, "0x04261818"⟩ := by
  interval_cases slot <;> exact ⟨by decide, by decide, by decide, by decide⟩

/-- Witness for C5 at slot 2, the slot of the worked example of the
specification. -/
theorem observed_slot_records_invariant_witness :
    parseAFILine (clearedAFILine 2 "0x04261818") =
        some ⟨2, "none", "cleared", 1, "ok", 0, "0x04261818"⟩ ∧
    parseAFILine (loadedAFILine 2 "agfi-0fcf9e2d397dd7f16" "0x04261818") =
        some ⟨2, "agfi-0fcf9e2d397dd7f16", "loaded", 0, "ok", 0, "0x04261818"⟩ ∧
    slotInvariant ⟨2, "none", "cleared", 1, "ok", 0, "0x04261818"⟩ ∧
    slotInvariant ⟨2, "agfi-0fcf9e2d397dd7f16", "loaded", 0, "ok", 0, "0x04261818"⟩ :=
  observed_slot_records_invariant 2 (by decide)

theorem slotsLinesFrom_length (dev : Nat → String) :
    ∀ k i, (slotsLinesFrom true dev i k).length = 2 * k + 1 := by
  intro k
  induction k with
  | zero => intro i; rfl
  | succ n ih =>
    intro i
    simp only [slotsLinesFrom, List.length_append, List.length_cons, List.length_nil,
      if_pos, ih]
    omega

theorem slotsLinesFrom_get (dev : Nat → String) :
    ∀ s k i, s < k →
      (slotsLinesFrom true dev i k).get? (2 * s) = some deviceHeaderLine ∧
      (slotsLinesFrom true dev i k).get? (2 * s + 1) = some (dev (i + s)) := by
  intro s
  induction s with
  | zero =>
    intro k i hk
    cases k with
    | zero => omega
    | succ n => simp [slotsLinesFrom]
  | succ m ih =>
    intro k i hk
    cases k with
    | zero => omega
    | succ n =>
      have h2 : 2 * (m + 1) = 2 * m + 1 + 1 := by omega
      have hrec := ih n (i + 1) (by omega)
      have harg : i + 1 + m = i + (m + 1) := by omega
      rw [harg] at hrec
      simp only [slotsLinesFrom, if_pos, List.cons_append, List.nil_append, h2,
        List.get?_cons_succ]
      exact hrec

/-- C6: with the header flag set, every record group is preceded by
exactly one header line: `fpga-describe-local-image-slots -H` over `n`
slots emits `2n + 1` stdout lines with the AFIDEVICE header at every even
index `2s` and slot `s`'s device row right after it, and
`fpga-describe-local-image -H` for one slot emits 5 stdout lines with the
AFI header at index 0 and the AFIDEVICE header at index 2. -/
theorem describe_with_headers (n : Nat) (dev : Nat → String) (s : Nat) (hs : s < n)
    (afiLine devLine : String) :
    (describeSlotsLines n true dev).length = 2 * n + 1 ∧
    (describeSlotsLines n true dev).get? (2 * s) = some deviceHeaderLine ∧
    (describeSlotsLines n true dev).get? (2 * s + 1) = some (dev s) ∧
    (describeImageLines true afiLine devLine).length = 5 ∧
    (describeImageLines true afiLine devLine).get? 0 = some afiHeaderLine ∧
    (describeImageLines true afiLine devLine).get? 2 = some deviceHeaderLine := by
  refine ⟨slotsLinesFrom_length dev n 0, (slotsLinesFrom_get dev s n 0 hs).1, ?_,
    rfl, rfl, rfl⟩
  have := (slotsLinesFrom_get dev s n 0 hs).2
  simpa using this

/-- Witness for C6 over two slots, probing the record group of slot 1. -/
theorem describe_with_headers_witness :
    (describeSlotsLines 2 true (fun k => toString k)).length = 2 * 2 + 1 ∧
    (describeSlotsLines 2 true (fun k => toString k)).get? (2 * 1) =
      some deviceHeaderLine ∧
    (describeSlotsLines 2 true (fun k => toString k)).get? (2 * 1 + 1) =
      some ((fun k => toString k) 1) ∧
    (describeImageLines true "afi row" "device row").length = 5 ∧
    (describeImageLines true "afi row" "device row").get? 0 = some afiHeaderLine ∧
    (describeImageLines true "afi row" "device row").get? 2 = some deviceHeaderLine :=
  describe_with_headers 2 (fun k => toString k) 1 (by decide) "afi row" "device row"

/-- C7: a walked directory holding both `Makefile` and `description.json`
is left out of the example map both when the description has no
`containers` key and when its `containers` list has more than one
element: in either case the directory is never appended, the first case
through an immediate `continue`, the second through the `ignore` flag
surviving to the final `if not ignore` test. -/
theorem vitis_container_filter_ignores (d : VitisDescription)
    (hcase : d.containers = none ∨ ∃ cs, d.containers = some cs ∧ 1 < cs.length) :
    exampleDirAdded true d = false := by
  rcases hcase with h | ⟨cs, hcs, hlen⟩
  · simp [exampleDirAdded, h]
  · simp only [exampleDirAdded, hcs, if_pos]
    split
    · rfl
    · split
      · rfl
      · simp [hlen]

/-- Witness for C7 at a description with no `containers` key. -/
theorem vitis_container_filter_ignores_witness :
    exampleDirAdded true ⟨none, none, none⟩ = false :=
  vitis_container_filter_ignores ⟨none, none, none⟩ (Or.inl rfl)

/-- C10: `fpga_set_virtual_dip_switch` strips every dash from its value
argument before formatting the command line, so the command issued for a
value and for its dash-free form coincide, for every slot and privilege
mode. -/
theorem fpga_set_virtual_dip_switch_dash_insensitive (value : String) (slot : Nat)
    (as_root : Bool) :
    fpga_set_virtual_dip_switch_cmd value slot as_root =
      fpga_set_virtual_dip_switch_cmd (removeDashes value) slot as_root := by
  unfold fpga_set_virtual_dip_switch_cmd
  have hidem : removeDashes (removeDashes value) = removeDashes value := by
    unfold removeDashes
    simp [List.asString, List.filter_filter]
  rw [hidem]

end AwsFpga
